import Mathlib

/-!
Verification of the BUG-RCA streaming backend.

Shallow embedding of the three source files of the repository:

* `app.py` — the Flask handler `process_video` with its inner generator
  `generate` and the channel-draining helper `run_task`;
* `trans_summary.py` — `translate_comments` (batching, parsing, padding);
* `extract_comments.py` — `extract_video_id` and the pre-API part of
  `fetch_comments`.

External collaborators (the YouTube Data API and the Groq chat API) are
modelled as parameters: the outcome of each background stage, the progress
messages drained on each poll of the task runner, and the pages returned by
the comment API are inputs of the embedded functions.  The cancellation
token (`abort_event`) is modelled by the boolean flags recording whether it
is observed set at each of the two in-generator check-points, and by the
per-iteration abort predicates of the collaborator loops.
-/

namespace BugRca

/-- Python `str.strip()` (default whitespace stripping), modelled over the
character list of the string. -/
def pyStrip (s : String) : String :=
  String.mk (((s.toList.dropWhile Char.isWhitespace).reverse.dropWhile
    Char.isWhitespace).reverse)

/-- Python truthiness of an optional string: `None` and `""` are falsy. -/
def truthyOpt : Option String → Bool
  | none => false
  | some s => s ≠ ""

/-- Split a character list on a separator character, Python
`str.split(sep)` style: the empty input gives one empty field. -/
def splitOnChar (sep : Char) : List Char → List (List Char)
  | [] => [[]]
  | c :: cs =>
    let rest := splitOnChar sep cs
    if c = sep then
      [] :: rest
    else
      match rest with
      | h :: t => (c :: h) :: t
      | [] => [[c]]

/-- Python `s.split('\n')` as a function on strings. -/
def splitNewlines (s : String) : List String :=
  (splitOnChar (Char.ofNat 10) s.toList).map String.mk

/-- The summary carried in a `PipelineResult`: either a plain string or a
structured JSON object (serialised); `app.py` treats it opaquely. -/
inductive Summary where
  | text (s : String)
  | structured (s : String)
deriving DecidableEq, Repr

/-- The `final_results` dict assembled by `generate` in `app.py` (lines
133–138) and stored in the dedup cache. -/
structure PipelineResult where
  extracted_count : Nat
  comments : List String
  translated_comments : List String
  summary : Summary
deriving DecidableEq, Repr

/-- The dict returned by `translate_and_summarise` in `trans_summary.py`. -/
structure TransPayload where
  translated_comments : List String
  summary : Summary
deriving DecidableEq, Repr

/-- One JSON body sent as a `data:` record of the event stream. -/
inductive DataEvent where
  /-- the body `{'status': status, 'message': message}` -/
  | status (status : String) (message : String)
  /-- the body `{'status': 'complete', 'results': results}` -/
  | complete (results : PipelineResult)
  /-- the body `{'error': msg}` -/
  | error (msg : String)
deriving DecidableEq, Repr

/-- One record of the server-sent event stream: either a `data: <json>\n\n`
record or an anonymous comment record `: <padding>\n\n`. -/
inductive SSERecord where
  | data (e : DataEvent)
  | comment (padding : String)
deriving DecidableEq, Repr

/-- The keep-alive padding record of `run_task` (`app.py` line 91): an SSE
comment record holding 2048 spaces and no data payload. -/
def keepAliveRecord : SSERecord :=
  SSERecord.comment (String.mk (List.replicate 2048 ' '))

/-- Is the record a `data:` record carrying an `error` key? -/
def SSERecord.isError : SSERecord → Bool
  | SSERecord.data (DataEvent.error _) => true
  | _ => false

/-- Is the record a `data:` record with `'status': 'complete'`? -/
def SSERecord.isComplete : SSERecord → Bool
  | SSERecord.data (DataEvent.complete _) => true
  | _ => false

/-- Is the record a `data:` record with `'status': 'translating'`? -/
def SSERecord.isTranslating : SSERecord → Bool
  | SSERecord.data (DataEvent.status s _) => s = "translating"
  | _ => false

/-- Model of `run_task` of `app.py` (lines 76–96), seen from the stream side.  The
background thread itself is abstracted by its observable schedule: while
the thread is alive the loop repeats "drain every queued message, then
yield one keep-alive padding record, then `t.join(1.0)`"; `polls` lists,
for each iteration of that loop, the messages drained at its head.  After
the thread dies the remaining queued messages (`finalDrain`) are drained.
Every drained message is emitted as `{'status': task_name, 'message': msg}`. -/
def run_task (task_name : String) :
    List (List String) → List String → List SSERecord
  | [], finalDrain =>
    finalDrain.map fun m => SSERecord.data (DataEvent.status task_name m)
  | msgs :: rest, finalDrain =>
    (msgs.map fun m => SSERecord.data (DataEvent.status task_name m)) ++
      keepAliveRecord :: run_task task_name rest finalDrain

/-- The collaborator behaviour observed by one run of `generate`:
the outcome of each of the two `run_task` invocations (a result value, or
the `str(e)` of the exception captured in `abort_result`), the drain
schedule of each, and the value of `abort_event.is_set()` at the two
check-points (lines 101 and 120 of `app.py`).  `fetch_comments` receives
no `progress_callback`, so nothing ever enqueues a message during the
extract stage and its polls drain nothing: only their count matters. -/
structure GenEnv where
  extractPolls : Nat
  extractResult : Except String (List String)
  abortAfterExtract : Bool
  transPolls : List (List String)
  transFinalDrain : List String
  transResult : Except String TransPayload
  abortAfterTrans : Bool

/-- What one run of the `generate` generator produces once fully consumed. -/
structure GenOut where
  /-- the SSE records yielded, in order -/
  records : List SSERecord
  /-- the value written to `processed_requests_cache` (line 141), present
  exactly when a `complete` record is emitted -/
  cached : Option PipelineResult
  /-- the external collaborators invoked through `run_task`, in order -/
  invoked : List String
deriving Repr

/-- The `final_results` dict of `app.py` lines 132–138: counts the full
extraction, truncates both comment lists to their first 20 items. -/
def final_results (comments : List String) (payload : TransPayload) :
    PipelineResult :=
  { extracted_count := comments.length
    comments := comments.take 20
    translated_comments := payload.translated_comments.take 20
    summary := payload.summary }

/-- The `generate` generator of `app.py` (lines 67–152), fully consumed.
Stage 1 emits the opening `extracting` record and runs `fetch_comments`
through `run_task`; if the abort token is set when the invocation returns
the generator returns silently.  A captured stage exception becomes an
`error` record; an empty comment list becomes the
`'No comments found for this video.'` error record.  Otherwise stage 2
emits the success and `translating` records, runs `translate_and_summarise`
through `run_task` (same abort/error handling), assembles `final_results`,
stores it in the cache and emits the `complete` record. -/
def generate (env : GenEnv) : GenOut :=
  let head := SSERecord.data
    (DataEvent.status "extracting" "Fetching comments from YouTube...")
  let extractRecs := run_task "extract" (List.replicate env.extractPolls []) []
  if env.abortAfterExtract then
    { records := head :: extractRecs, cached := none,
      invoked := ["fetch_comments"] }
  else
    match env.extractResult with
    | Except.error e =>
      { records := head :: extractRecs ++ [SSERecord.data (DataEvent.error e)],
        cached := none, invoked := ["fetch_comments"] }
    | Except.ok comments =>
      if comments = [] then
        { records := head :: extractRecs ++
            [SSERecord.data (DataEvent.error "No comments found for this video.")],
          cached := none, invoked := ["fetch_comments"] }
      else
        let mid := [SSERecord.data
            (DataEvent.status "extracting" "Extracted comments successfully."),
          SSERecord.data (DataEvent.status "translating"
            ("Translating and summarizing " ++ toString comments.length ++
              " comments with Groq LLaMA..."))]
        let transRecs := run_task "trans_summary" env.transPolls env.transFinalDrain
        if env.abortAfterTrans then
          { records := head :: extractRecs ++ mid ++ transRecs, cached := none,
            invoked := ["fetch_comments", "translate_and_summarise"] }
        else
          match env.transResult with
          | Except.error e =>
            { records := head :: extractRecs ++ mid ++ transRecs ++
                [SSERecord.data (DataEvent.error e)],
              cached := none,
              invoked := ["fetch_comments", "translate_and_summarise"] }
          | Except.ok payload =>
            { records := head :: extractRecs ++ mid ++ transRecs ++
                [SSERecord.data (DataEvent.complete (final_results comments payload))],
              cached := some (final_results comments payload),
              invoked := ["fetch_comments", "translate_and_summarise"] }

/-- The JSON body of a `POST /api/process-video` request; `none` fields are
keys absent from the JSON object. -/
structure ReqData where
  url : Option String
  youtube_api_key : Option String
  groq_api_key : Option String
  request_id : Option String

/-- The process-wide `processed_requests_cache`, as an association list
(newest binding first). -/
abbrev Cache := List (String × PipelineResult)

/-- The two possible responses of the handler. -/
inductive Resp where
  | badRequest (error : String)
  | stream (records : List SSERecord)

/-- The `process_video` handler of `app.py` (lines 38–160): validation
(`url` checked for presence only; both API keys and the `request_id`
stripped and rejected when blank), then the dedup-cache short-circuit
(a synthesized two-record stream), then the full `generate` run.  Returns
the response, the cache after the request, and the collaborators invoked. -/
def process_video (cache : Cache) (body : Option ReqData) (env : GenEnv) :
    Resp × Cache × List String :=
  match body with
  | none => (Resp.badRequest "URL is required", cache, [])
  | some data =>
    match data.url with
    | none => (Resp.badRequest "URL is required", cache, [])
    | some _video_url =>
      let youtube_api_key := pyStrip (data.youtube_api_key.getD "")
      let groq_api_key := pyStrip (data.groq_api_key.getD "")
      let request_id := pyStrip (data.request_id.getD "")
      if youtube_api_key = "" ∨ groq_api_key = "" then
        (Resp.badRequest "Both YouTube and Groq API keys are required.", cache, [])
      else if request_id = "" then
        (Resp.badRequest "request_id is required to prevent duplicate processing.",
          cache, [])
      else
        match List.lookup request_id cache with
        | some res =>
          (Resp.stream
            [SSERecord.data (DataEvent.status "extracting" "Loading from cache..."),
             SSERecord.data (DataEvent.complete res)],
           cache, [])
        | none =>
          let out := generate env
          (Resp.stream out.records,
           (match out.cached with
            | some r => (request_id, r) :: cache
            | none => cache),
           out.invoked)

/-- The line cleanup of `translate_comments` (`trans_summary.py` lines
56–60): when the regex `^\d+[\.\)\:]\s*(.*)` matches, keep only the
captured group (the line with its numbering prefix and the following
whitespace removed); otherwise keep the whole line. -/
def strip_numbering (line : String) : String :=
  let cs := line.toList
  let digits := cs.takeWhile Char.isDigit
  if digits = [] then line
  else
    match cs.drop digits.length with
    | c :: rest =>
      if c = '.' ∨ c = ')' ∨ c = ':' then
        String.mk (rest.dropWhile Char.isWhitespace)
      else line
    | [] => line

/-- Parsing of one Groq translation response (`trans_summary.py` lines
50–60): strip the text, split on newlines, skip blank lines, clean each
remaining line. -/
def parse_translation (result_text : String) : List String :=
  ((splitNewlines (pyStrip result_text)).filter
    fun l => pyStrip l != "").map strip_numbering

/-- One loop iteration of `translate_comments` after the abort check: on an
API exception the batch itself is appended untranslated; otherwise the
parsed response is padded with the untranslated tail of the batch when it
is short, and truncated to the batch length. -/
def translate_batch (batch : List String) (outcome : Except Unit String) :
    List String :=
  match outcome with
  | Except.error _ => batch
  | Except.ok result_text =>
    let parsed_batch := parse_translation result_text
    let padded := parsed_batch ++ batch.drop parsed_batch.length
    padded.take batch.length

/-- The batch loop of `translate_comments`: `api i` is the outcome of the
Groq call on batch `i` (exception, or the raw response text); `abort i` is
the value of `abort_event.is_set()` observed at the head of iteration `i`
(a set token breaks out of the loop). -/
def translate_go (api : Nat → Except Unit String) (abort : Nat → Bool) :
    List String → Nat → List String
  | [], _ => []
  | c :: rest, i =>
    if abort i then []
    else
      translate_batch ((c :: rest).take 20) (api i) ++
        translate_go api abort (rest.drop 19) (i + 1)
  termination_by cs _ => cs.length
  decreasing_by simp [List.length_drop]; omega

/-- Model of `translate_comments` of `trans_summary.py` (lines 29–72), batch size 20. -/
def translate_comments (comments : List String)
    (api : Nat → Except Unit String) (abort : Nat → Bool) : List String :=
  translate_go api abort comments 0

/-- The character class `[0-9A-Za-z_-]` of the video-id regex in
`extract_comments.py`. -/
def isIdChar (c : Char) : Bool :=
  c.isAlphanum || c = '_' || c = '-'

/-- The capture group when `(?:v=|\/)([0-9A-Za-z_-]{11}).*` matches with
the alternation resolved and the prefix already consumed: eleven characters
of the id class. -/
def captureIdFrom (rest : List Char) : Option (List Char) :=
  let cand := rest.take 11
  if cand.length = 11 ∧ cand.all isIdChar then some cand else none

/-- Does the video-id pattern match starting exactly at the head of `cs`? -/
def matchIdAt : List Char → Option (List Char)
  | 'v' :: '=' :: rest => captureIdFrom rest
  | '/' :: rest => captureIdFrom rest
  | _ => none

/-- Behaviour of `re.search`: the leftmost position where the pattern matches. -/
def searchId : List Char → Option (List Char)
  | [] => none
  | c :: cs =>
    match matchIdAt (c :: cs) with
    | some g => some g
    | none => searchId cs

/-- Model of `extract_video_id` of `extract_comments.py` (lines 6–15). -/
def extract_video_id (url : String) : Option String :=
  (searchId url.toList).map String.mk

/-- The pagination loop of `fetch_comments` (lines 40–64): the abort token
is checked at each page boundary (a set token breaks out); each page's
comments that are non-empty and non-blank are stripped and collected. -/
def collect_pages : List (List String) → (Nat → Bool) → Nat → List String
  | [], _, _ => []
  | page :: rest, abort, i =>
    if abort i then []
    else
      (page.filter fun c => c != "" && pyStrip c != "").map pyStrip ++
        collect_pages rest abort (i + 1)

/-- Model of `fetch_comments` of `extract_comments.py` (lines 17–71): the API-key
fallback to the environment variable, the video-id extraction (a
`ValueError` when no id can be extracted from the URL), then the
pagination loop over the pages the API returns.  The `Except.error`
values are the messages of the exceptions the function raises. -/
def fetch_comments (video_url : String) (api_key : Option String)
    (envKey : Option String) (pages : List (List String))
    (abort : Nat → Bool) : Except String (List String) :=
  let key := if truthyOpt api_key then api_key else envKey
  if !truthyOpt key then
    Except.error "YouTube API key not provided."
  else
    match extract_video_id video_url with
    | none =>
      Except.error ("Could not extract a valid YouTube video ID from " ++ video_url)
    | some _ => Except.ok (collect_pages pages abort 0)

/-! Concrete example inputs, used to instantiate the theorems below at
closed values. -/

/-- An example cached result. -/
def exRes : PipelineResult :=
  { extracted_count := 3, comments := ["a"], translated_comments := ["b"],
    summary := Summary.text "s" }

/-- An example valid request body. -/
def exReq : ReqData :=
  { url := some "https://youtu.be/dQw4w9WgXcQ", youtube_api_key := some "yk",
    groq_api_key := some "gk", request_id := some "rid-1" }

/-- An example collaborator environment for a successful two-comment run. -/
def exEnv : GenEnv :=
  { extractPolls := 1, extractResult := Except.ok ["c1", "c2"],
    abortAfterExtract := false, transPolls := [["m1"]], transFinalDrain := [],
    transResult := Except.ok ⟨["t1", "t2"], Summary.text "s"⟩,
    abortAfterTrans := false }

/-- An environment in which extraction succeeds with zero comments. -/
def emptyExtractEnv : GenEnv :=
  { extractPolls := 0, extractResult := Except.ok [],
    abortAfterExtract := false, transPolls := [], transFinalDrain := [],
    transResult := Except.error "", abortAfterTrans := false }

/-- Thirty-seven extracted comments. -/
def ex37 : List String := List.replicate 37 "c"

/-- A translation payload with thirty-seven translated comments. -/
def exPayload37 : TransPayload :=
  { translated_comments := List.replicate 37 "t", summary := Summary.text "s" }

/-- An environment for a successful run over the thirty-seven comments. -/
def env37 : GenEnv :=
  { extractPolls := 0, extractResult := Except.ok ex37,
    abortAfterExtract := false, transPolls := [], transFinalDrain := [],
    transResult := Except.ok exPayload37, abortAfterTrans := false }

/-- A Groq API that always raises. -/
def exApiRaises : Nat → Except Unit String := fun _ => Except.error ()

/-- An abort token that is never set. -/
def exAbortOff : Nat → Bool := fun _ => false

/-- A request body whose `url` key is absent. -/
def exReqNoUrl : ReqData :=
  { url := none, youtube_api_key := some "yk", groq_api_key := some "gk",
    request_id := some "r" }

/-- A request body whose `url` is present but the empty string. -/
def exReqEmptyUrl : ReqData :=
  { url := some "", youtube_api_key := some "yk", groq_api_key := some "gk",
    request_id := some "r" }

/-! Helper lemmas shared by several of the theorems below. -/

/-- During the extract stage nothing ever enqueues progress messages, so
its `run_task` invocation yields exactly one keep-alive record per poll. -/
theorem run_task_empty_polls (tn : String) (n : Nat) :
    run_task tn (List.replicate n []) [] = List.replicate n keepAliveRecord := by
  induction n with
  | zero => rfl
  | succ k ih => simp [run_task, List.replicate_succ, ih]

/-- A keep-alive record carries no `error`, `complete` or `translating`
payload. -/
theorem keepAliveRecord_plain :
    keepAliveRecord.isError = false ∧ keepAliveRecord.isComplete = false ∧
      keepAliveRecord.isTranslating = false :=
  ⟨rfl, rfl, rfl⟩

/-- Members of a replicated keep-alive block are keep-alive records. -/
theorem mem_replicate_keepAlive {n : Nat} {r : SSERecord}
    (h : r ∈ List.replicate n keepAliveRecord) : r = keepAliveRecord :=
  (List.eq_of_mem_replicate h)

/-- **C1.** For every valid request whose stripped `request_id` is already
present in the dedup cache, `process_video` responds with exactly two
stream records — an `extracting` record with message
`"Loading from cache..."` followed by a `complete` record carrying the
cached `PipelineResult` — the cache is left unchanged, and neither the
Comment Source (`fetch_comments`) nor the Language Pipeline
(`translate_and_summarise`) is invoked. -/
theorem cached_request_two_records (cache : Cache) (d : ReqData)
    (env : GenEnv) (u : String) (res : PipelineResult)
    (hurl : d.url = some u)
    (hyk : pyStrip (d.youtube_api_key.getD "") ≠ "")
    (hgk : pyStrip (d.groq_api_key.getD "") ≠ "")
    (hrid : pyStrip (d.request_id.getD "") ≠ "")
    (hcache : List.lookup (pyStrip (d.request_id.getD "")) cache = some res) :
    process_video cache (some d) env =
      (Resp.stream
        [SSERecord.data (DataEvent.status "extracting" "Loading from cache..."),
         SSERecord.data (DataEvent.complete res)],
       cache, []) := by
  simp [process_video, hurl, hyk, hgk, hrid, hcache]

/-- Witness for C1 at concrete inputs. -/
theorem cached_request_two_records_witness :
    exReq.url = some "https://youtu.be/dQw4w9WgXcQ" ∧
    pyStrip (exReq.youtube_api_key.getD "") ≠ "" ∧
    pyStrip (exReq.groq_api_key.getD "") ≠ "" ∧
    pyStrip (exReq.request_id.getD "") ≠ "" ∧
    List.lookup (pyStrip (exReq.request_id.getD ""))
      ([("rid-1", exRes)] : Cache) = some exRes ∧
    process_video ([("rid-1", exRes)] : Cache) (some exReq) exEnv =
      (Resp.stream
        [SSERecord.data (DataEvent.status "extracting" "Loading from cache..."),
         SSERecord.data (DataEvent.complete exRes)],
       ([("rid-1", exRes)] : Cache), []) :=
  ⟨rfl, by decide, by decide, by decide, by decide,
   cached_request_two_records _ _ _ _ _ rfl (by decide) (by decide)
     (by decide) (by decide)⟩

/-- **C5.** For every run in which the cancellation token is observed set
when the extract stage's `run_task` invocation returns, the stream stops
right there: the records are exactly the opening `extracting` record and
the extract stage's keep-alives, and no `translating`, `error` or
`complete` record ever appears — cancellation is a silent termination. -/
theorem cancel_after_extract_silent (env : GenEnv)
    (h : env.abortAfterExtract = true) :
    (generate env).records =
      SSERecord.data (DataEvent.status "extracting"
          "Fetching comments from YouTube...") ::
        List.replicate env.extractPolls keepAliveRecord ∧
    ∀ r ∈ (generate env).records,
      r.isTranslating = false ∧ r.isError = false ∧ r.isComplete = false := by
  have hrec : (generate env).records =
      SSERecord.data (DataEvent.status "extracting"
          "Fetching comments from YouTube...") ::
        List.replicate env.extractPolls keepAliveRecord := by
    simp [generate, h, run_task_empty_polls]
  refine ⟨hrec, ?_⟩
  intro r hr
  rw [hrec] at hr
  rcases List.mem_cons.mp hr with h0 | h1
  · subst h0; exact ⟨rfl, rfl, rfl⟩
  · rw [mem_replicate_keepAlive h1]; exact ⟨rfl, rfl, rfl⟩

/-- Witness for C5 at a concrete input. -/
theorem cancel_after_extract_silent_witness :
    ({ exEnv with abortAfterExtract := true } : GenEnv).abortAfterExtract = true ∧
    ((generate { exEnv with abortAfterExtract := true }).records =
      SSERecord.data (DataEvent.status "extracting"
          "Fetching comments from YouTube...") ::
        List.replicate
          ({ exEnv with abortAfterExtract := true } : GenEnv).extractPolls
          keepAliveRecord ∧
    ∀ r ∈ (generate { exEnv with abortAfterExtract := true }).records,
      r.isTranslating = false ∧ r.isError = false ∧ r.isComplete = false) :=
  ⟨rfl, cancel_after_extract_silent _ rfl⟩

/-- **C4, counterexample.** On a run whose extraction succeeds with zero
comments (and no cancellation), the single error record's message is
`"No comments found for this video."`; no record with message
`"no comments found"` — the message the claim states — ever appears. -/
theorem no_comments_message_counterexample :
    ((generate emptyExtractEnv).records.filter SSERecord.isError) =
      [SSERecord.data (DataEvent.error "No comments found for this video.")] ∧
    SSERecord.data (DataEvent.error "no comments found") ∉
      (generate emptyExtractEnv).records := by
  decide

/-- **C4, amended.** For every run in which the Comment Source returns an
empty sequence without raising and without cancellation, the stream is
the opening `extracting` record, the extract keep-alives, and exactly one
terminal `error` record whose message is
`"No comments found for this video."`; no `translating` record and no
`complete` record appear, and the Language Pipeline is never invoked. -/
theorem empty_extraction_single_error (env : GenEnv)
    (hab : env.abortAfterExtract = false)
    (hex : env.extractResult = Except.ok []) :
    (generate env).records =
      SSERecord.data (DataEvent.status "extracting"
          "Fetching comments from YouTube...") ::
        (List.replicate env.extractPolls keepAliveRecord ++
          [SSERecord.data (DataEvent.error "No comments found for this video.")]) ∧
    ((generate env).records.filter SSERecord.isError) =
      [SSERecord.data (DataEvent.error "No comments found for this video.")] ∧
    (generate env).records.getLast? =
      some (SSERecord.data (DataEvent.error "No comments found for this video.")) ∧
    (∀ r ∈ (generate env).records,
      r.isTranslating = false ∧ r.isComplete = false) ∧
    (generate env).invoked = ["fetch_comments"] := by
  have hrec : (generate env).records =
      SSERecord.data (DataEvent.status "extracting"
          "Fetching comments from YouTube...") ::
        (List.replicate env.extractPolls keepAliveRecord ++
          [SSERecord.data (DataEvent.error "No comments found for this video.")]) := by
    simp [generate, hab, hex, run_task_empty_polls]
  refine ⟨hrec, ?_, ?_, ?_, ?_⟩
  · rw [hrec]
    simp [List.filter_append, List.filter_replicate, SSERecord.isError,
      keepAliveRecord]
  · rw [hrec, ← List.cons_append, List.getLast?_concat]
  · intro r hr
    rw [hrec] at hr
    rcases List.mem_cons.mp hr with h0 | h1
    · subst h0; exact ⟨rfl, rfl⟩
    · rcases List.mem_append.mp h1 with h2 | h3
      · rw [mem_replicate_keepAlive h2]; exact ⟨rfl, rfl⟩
      · rcases List.mem_singleton.mp h3 with rfl; exact ⟨rfl, rfl⟩
  · simp [generate, hab, hex]

/-- Witness for the amended C4 at a concrete input. -/
theorem empty_extraction_single_error_witness :
    emptyExtractEnv.abortAfterExtract = false ∧
    emptyExtractEnv.extractResult = Except.ok [] ∧
    ((generate emptyExtractEnv).records =
      SSERecord.data (DataEvent.status "extracting"
          "Fetching comments from YouTube...") ::
        (List.replicate emptyExtractEnv.extractPolls keepAliveRecord ++
          [SSERecord.data (DataEvent.error "No comments found for this video.")]) ∧
    ((generate emptyExtractEnv).records.filter SSERecord.isError) =
      [SSERecord.data (DataEvent.error "No comments found for this video.")] ∧
    (generate emptyExtractEnv).records.getLast? =
      some (SSERecord.data (DataEvent.error "No comments found for this video.")) ∧
    (∀ r ∈ (generate emptyExtractEnv).records,
      r.isTranslating = false ∧ r.isComplete = false) ∧
    (generate emptyExtractEnv).invoked = ["fetch_comments"]) :=
  ⟨rfl, rfl, empty_extraction_single_error emptyExtractEnv rfl rfl⟩

/-- **C8.** Whenever a background stage is still alive at poll `i` and
that poll drains no progress message, the stream emits a keep-alive
padding record at that point — before every record of the later polls and
of the final drain, so before the next real data record — and the padding
record is an SSE comment record of 2048 spaces carrying no data payload. -/
theorem idle_poll_emits_keepalive (tn : String) (polls : List (List String))
    (fin : List String) (i : Nat) (h : polls.get? i = some []) :
    run_task tn polls fin =
      run_task tn (polls.take i) [] ++
        keepAliveRecord :: run_task tn (polls.drop (i + 1)) fin ∧
    keepAliveRecord = SSERecord.comment (String.mk (List.replicate 2048 ' ')) := by
  refine ⟨?_, rfl⟩
  induction polls generalizing i with
  | nil => simp at h
  | cons p ps ih =>
    cases i with
    | zero =>
      have hp : p = [] := by simpa using h
      subst hp
      simp [run_task]
    | succ j =>
      have hj : ps.get? j = some [] := by simpa using h
      simp only [run_task, List.take_succ_cons, List.drop_succ_cons]
      rw [ih j hj]
      simp [run_task, List.append_assoc]

/-- Witness for C8 at a concrete input. -/
theorem idle_poll_emits_keepalive_witness :
    ([([] : List String)] : List (List String)).get? 0 = some [] ∧
    (run_task "extract" [[]] ["done"] =
      run_task "extract" (([[]] : List (List String)).take 0) [] ++
        keepAliveRecord ::
          run_task "extract" (([[]] : List (List String)).drop 1) ["done"] ∧
     keepAliveRecord = SSERecord.comment (String.mk (List.replicate 2048 ' '))) :=
  ⟨rfl, idle_poll_emits_keepalive "extract" [[]] ["done"] 0 rfl⟩

/-- **C6.** For every `POST /api/process-video` body lacking `url`, or with
a blank (empty after stripping) `youtube_api_key`, `groq_api_key` or
`request_id`, the handler returns the corresponding 400 JSON error
synchronously: the response is `badRequest` with the matching message (in
the source's checking order), the cache is unchanged, and no collaborator
is ever invoked — no streaming and no background work happens. -/
theorem invalid_request_rejected (d : ReqData) (cache : Cache) (env : GenEnv)
    (h : d.url = none ∨ pyStrip (d.youtube_api_key.getD "") = "" ∨
      pyStrip (d.groq_api_key.getD "") = "" ∨
      pyStrip (d.request_id.getD "") = "") :
    process_video cache (some d) env =
      (Resp.badRequest
        (if d.url = none then "URL is required"
         else if pyStrip (d.youtube_api_key.getD "") = "" ∨
             pyStrip (d.groq_api_key.getD "") = "" then
           "Both YouTube and Groq API keys are required."
         else "request_id is required to prevent duplicate processing."),
       cache, []) := by
  cases hu : d.url with
  | none => simp [process_video, hu]
  | some u =>
    have h' : pyStrip (d.youtube_api_key.getD "") = "" ∨
        pyStrip (d.groq_api_key.getD "") = "" ∨
        pyStrip (d.request_id.getD "") = "" := by
      rcases h with h | h
      · rw [hu] at h; exact absurd h (by simp)
      · exact h
    by_cases hk : pyStrip (d.youtube_api_key.getD "") = "" ∨
        pyStrip (d.groq_api_key.getD "") = ""
    · simp [process_video, hu, hk]
    · have hrid : pyStrip (d.request_id.getD "") = "" := by tauto
      simp [process_video, hu, hk, hrid]

/-- Witness for C6 at a concrete input (missing `url`). -/
theorem invalid_request_rejected_witness :
    (exReqNoUrl.url = none ∨
      pyStrip (exReqNoUrl.youtube_api_key.getD "") = "" ∨
      pyStrip (exReqNoUrl.groq_api_key.getD "") = "" ∨
      pyStrip (exReqNoUrl.request_id.getD "") = "") ∧
    process_video [] (some exReqNoUrl) exEnv =
      (Resp.badRequest
        (if exReqNoUrl.url = none then "URL is required"
         else if pyStrip (exReqNoUrl.youtube_api_key.getD "") = "" ∨
             pyStrip (exReqNoUrl.groq_api_key.getD "") = "" then
           "Both YouTube and Groq API keys are required."
         else "request_id is required to prevent duplicate processing."),
       [], []) :=
  ⟨Or.inl rfl, invalid_request_rejected exReqNoUrl [] exEnv (Or.inl rfl)⟩

/-- Characterization of a fully successful `generate` run: the stream ends
with the `complete` record carrying `final_results`, and that same value
is written to the dedup cache. -/
theorem generate_success (env : GenEnv) (comments : List String)
    (payload : TransPayload)
    (hab1 : env.abortAfterExtract = false)
    (hex : env.extractResult = Except.ok comments) (hne : comments ≠ [])
    (hab2 : env.abortAfterTrans = false)
    (htr : env.transResult = Except.ok payload) :
    (generate env).records =
      (SSERecord.data (DataEvent.status "extracting"
          "Fetching comments from YouTube...") ::
        (List.replicate env.extractPolls keepAliveRecord ++
          (SSERecord.data (DataEvent.status "extracting"
              "Extracted comments successfully.") ::
            SSERecord.data (DataEvent.status "translating"
              ("Translating and summarizing " ++ toString comments.length ++
                " comments with Groq LLaMA...")) ::
            run_task "trans_summary" env.transPolls env.transFinalDrain))) ++
        [SSERecord.data (DataEvent.complete (final_results comments payload))] ∧
    (generate env).cached = some (final_results comments payload) := by
  constructor <;>
    simp [generate, hab1, hex, hne, hab2, htr, run_task_empty_polls]

/-- Characterization of a run whose translate stage raised: the stream
ends with the `error` record carrying the captured message. -/
theorem generate_trans_error (env : GenEnv) (comments : List String)
    (e : String)
    (hab1 : env.abortAfterExtract = false)
    (hex : env.extractResult = Except.ok comments) (hne : comments ≠ [])
    (hab2 : env.abortAfterTrans = false)
    (htr : env.transResult = Except.error e) :
    (generate env).records =
      (SSERecord.data (DataEvent.status "extracting"
          "Fetching comments from YouTube...") ::
        (List.replicate env.extractPolls keepAliveRecord ++
          (SSERecord.data (DataEvent.status "extracting"
              "Extracted comments successfully.") ::
            SSERecord.data (DataEvent.status "translating"
              ("Translating and summarizing " ++ toString comments.length ++
                " comments with Groq LLaMA...")) ::
            run_task "trans_summary" env.transPolls env.transFinalDrain))) ++
        [SSERecord.data (DataEvent.error e)] := by
  simp [generate, hab1, hex, hne, hab2, htr, run_task_empty_polls]

/-- **C3.** For every successful run with `n` extracted comments and `n`
translated comments, `n > 20`, the `complete` record's `PipelineResult`
has `comments` of length exactly 20 (the first 20 extracted),
`translated_comments` of length exactly 20 (the first 20 translated), and
`extracted_count` equal to `n`, the pre-truncation length. -/
theorem truncation_in_complete (env : GenEnv) (comments : List String)
    (payload : TransPayload) (n : Nat)
    (hab1 : env.abortAfterExtract = false)
    (hex : env.extractResult = Except.ok comments)
    (hn : comments.length = n) (h20 : 20 < n)
    (hab2 : env.abortAfterTrans = false)
    (htr : env.transResult = Except.ok payload)
    (hpl : payload.translated_comments.length = n) :
    SSERecord.data (DataEvent.complete (final_results comments payload)) ∈
      (generate env).records ∧
    (final_results comments payload).comments = comments.take 20 ∧
    (final_results comments payload).comments.length = 20 ∧
    (final_results comments payload).translated_comments =
      payload.translated_comments.take 20 ∧
    (final_results comments payload).translated_comments.length = 20 ∧
    (final_results comments payload).extracted_count = n := by
  have hne : comments ≠ [] := by
    intro h0
    rw [h0] at hn
    simp at hn
    omega
  have hrec := (generate_success env comments payload hab1 hex hne hab2 htr).1
  refine ⟨?_, rfl, ?_, rfl, ?_, hn⟩
  · rw [hrec]
    simp
  · simp [final_results, List.length_take]
    omega
  · simp [final_results, List.length_take]
    omega

/-- Witness for C3 at a concrete 37-comment run. -/
theorem truncation_in_complete_witness :
    env37.abortAfterExtract = false ∧
    env37.extractResult = Except.ok ex37 ∧
    ex37.length = 37 ∧ 20 < 37 ∧
    env37.abortAfterTrans = false ∧
    env37.transResult = Except.ok exPayload37 ∧
    exPayload37.translated_comments.length = 37 ∧
    (SSERecord.data (DataEvent.complete (final_results ex37 exPayload37)) ∈
      (generate env37).records ∧
    (final_results ex37 exPayload37).comments = ex37.take 20 ∧
    (final_results ex37 exPayload37).comments.length = 20 ∧
    (final_results ex37 exPayload37).translated_comments =
      exPayload37.translated_comments.take 20 ∧
    (final_results ex37 exPayload37).translated_comments.length = 20 ∧
    (final_results ex37 exPayload37).extracted_count = 37) :=
  ⟨rfl, rfl, by decide, by decide, rfl, rfl, by decide,
   truncation_in_complete env37 ex37 exPayload37 37 rfl rfl (by decide)
     (by decide) rfl rfl (by decide)⟩

/-- **C7.** Every failure captured at a stage boundary — the extract stage
or the translate stage raising, with the run not cancelled — is caught
rather than propagated: the stream emits a `data:` record whose JSON body
carries an `error` key with the exception's message, and that record
terminates the (always finite) stream, so the event stream closes cleanly. -/
theorem stage_failure_becomes_error_record (env : GenEnv) (e : String)
    (hab1 : env.abortAfterExtract = false)
    (hab2 : env.abortAfterTrans = false)
    (h : env.extractResult = Except.error e ∨
      (env.transResult = Except.error e ∧
        ∃ comments, env.extractResult = Except.ok comments ∧ comments ≠ [])) :
    SSERecord.data (DataEvent.error e) ∈ (generate env).records ∧
    (generate env).records.getLast? =
      some (SSERecord.data (DataEvent.error e)) := by
  rcases h with h | ⟨htr, comments, hex, hne⟩
  · have hrec : (generate env).records =
        (SSERecord.data (DataEvent.status "extracting"
            "Fetching comments from YouTube...") ::
          List.replicate env.extractPolls keepAliveRecord) ++
          [SSERecord.data (DataEvent.error e)] := by
      simp [generate, hab1, h, run_task_empty_polls]
    rw [hrec]
    exact ⟨by simp, List.getLast?_concat _⟩
  · have hrec := generate_trans_error env comments e hab1 hex hne hab2 htr
    rw [hrec]
    exact ⟨by simp, List.getLast?_concat _⟩

/-- Witness for C7 at a concrete input (extract stage raises). -/
theorem stage_failure_becomes_error_record_witness :
    ({ exEnv with extractResult := Except.error "boom" } : GenEnv).abortAfterExtract
        = false ∧
    ({ exEnv with extractResult := Except.error "boom" } : GenEnv).abortAfterTrans
        = false ∧
    ({ exEnv with extractResult := Except.error "boom" } : GenEnv).extractResult
        = Except.error "boom" ∧
    (SSERecord.data (DataEvent.error "boom") ∈
      (generate { exEnv with extractResult := Except.error "boom" }).records ∧
    (generate { exEnv with extractResult := Except.error "boom" }).records.getLast?
        = some (SSERecord.data (DataEvent.error "boom"))) :=
  ⟨rfl, rfl, rfl,
   stage_failure_becomes_error_record _ "boom" rfl rfl (Or.inl rfl)⟩

/-- **C2.** Submitting two requests with the same non-empty stripped
`request_id`, the second after the first has completed and cached its
result, returns the first request's `PipelineResult` unchanged in the
second response, even when every other field of the second request
(including `url`) differs: the first run's stream carries
`final_results comments payload` in its `complete` record, and the second
response is exactly the two-record cached stream with that same value, the
cache left unchanged and no collaborator invoked. -/
theorem idempotent_retry (cache0 : Cache) (d1 d2 : ReqData)
    (env1 env2 : GenEnv) (u1 u2 : String) (comments : List String)
    (payload : TransPayload)
    (hurl1 : d1.url = some u1)
    (hyk1 : pyStrip (d1.youtube_api_key.getD "") ≠ "")
    (hgk1 : pyStrip (d1.groq_api_key.getD "") ≠ "")
    (hrid1 : pyStrip (d1.request_id.getD "") ≠ "")
    (hmiss : List.lookup (pyStrip (d1.request_id.getD "")) cache0 = none)
    (hab1 : env1.abortAfterExtract = false)
    (hex1 : env1.extractResult = Except.ok comments) (hne : comments ≠ [])
    (hab2 : env1.abortAfterTrans = false)
    (htr1 : env1.transResult = Except.ok payload)
    (hurl2 : d2.url = some u2)
    (hyk2 : pyStrip (d2.youtube_api_key.getD "") ≠ "")
    (hgk2 : pyStrip (d2.groq_api_key.getD "") ≠ "")
    (hsame : pyStrip (d2.request_id.getD "") = pyStrip (d1.request_id.getD "")) :
    SSERecord.data (DataEvent.complete (final_results comments payload)) ∈
      (generate env1).records ∧
    process_video ((process_video cache0 (some d1) env1).2.1) (some d2) env2 =
      (Resp.stream
        [SSERecord.data (DataEvent.status "extracting" "Loading from cache..."),
         SSERecord.data (DataEvent.complete (final_results comments payload))],
       (process_video cache0 (some d1) env1).2.1, []) := by
  have hgen := generate_success env1 comments payload hab1 hex1 hne hab2 htr1
  have hc1 : (process_video cache0 (some d1) env1).2.1 =
      (pyStrip (d1.request_id.getD ""), final_results comments payload) ::
        cache0 := by
    simp [process_video, hurl1, hyk1, hgk1, hrid1, hmiss, hgen.2]
  constructor
  · rw [hgen.1]
    simp
  · rw [hc1]
    have hl : List.lookup (pyStrip (d2.request_id.getD ""))
        (((pyStrip (d1.request_id.getD ""), final_results comments payload) ::
          cache0 : Cache)) = some (final_results comments payload) := by
      rw [hsame]
      simp [List.lookup]
    simp [process_video, hurl2, hyk2, hgk2, hsame, hrid1, hl]

/-- Witness for C2 at concrete inputs: the second request differs from the
first in its `url` but shares its `request_id`. -/
theorem idempotent_retry_witness :
    exReq.url = some "https://youtu.be/dQw4w9WgXcQ" ∧
    pyStrip (exReq.youtube_api_key.getD "") ≠ "" ∧
    pyStrip (exReq.groq_api_key.getD "") ≠ "" ∧
    pyStrip (exReq.request_id.getD "") ≠ "" ∧
    List.lookup (pyStrip (exReq.request_id.getD "")) ([] : Cache) = none ∧
    exEnv.abortAfterExtract = false ∧
    exEnv.extractResult = Except.ok ["c1", "c2"] ∧
    (["c1", "c2"] : List String) ≠ [] ∧
    exEnv.abortAfterTrans = false ∧
    exEnv.transResult = Except.ok (⟨["t1", "t2"], Summary.text "s"⟩ : TransPayload) ∧
    ({ exReq with url := some "other" } : ReqData).url = some "other" ∧
    pyStrip (({ exReq with url := some "other" } : ReqData).youtube_api_key.getD "")
        ≠ "" ∧
    pyStrip (({ exReq with url := some "other" } : ReqData).groq_api_key.getD "")
        ≠ "" ∧
    pyStrip (({ exReq with url := some "other" } : ReqData).request_id.getD "")
        = pyStrip (exReq.request_id.getD "") ∧
    (SSERecord.data (DataEvent.complete
        (final_results ["c1", "c2"] ⟨["t1", "t2"], Summary.text "s"⟩)) ∈
      (generate exEnv).records ∧
    process_video ((process_video [] (some exReq) exEnv).2.1)
        (some { exReq with url := some "other" }) exEnv =
      (Resp.stream
        [SSERecord.data (DataEvent.status "extracting" "Loading from cache..."),
         SSERecord.data (DataEvent.complete
           (final_results ["c1", "c2"] ⟨["t1", "t2"], Summary.text "s"⟩))],
       (process_video [] (some exReq) exEnv).2.1, [])) :=
  ⟨rfl, by decide, by decide, by decide, rfl, rfl, rfl, by decide, rfl, rfl,
   rfl, by decide, by decide, rfl,
   idempotent_retry [] exReq { exReq with url := some "other" } exEnv exEnv
     "https://youtu.be/dQw4w9WgXcQ" "other" ["c1", "c2"]
     ⟨["t1", "t2"], Summary.text "s"⟩ rfl (by decide) (by decide) (by decide)
     rfl rfl rfl (by decide) rfl rfl rfl (by decide) (by decide) rfl⟩

/-- Each loop iteration of `translate_comments` contributes exactly as
many output items as its batch holds: a raised call is replaced by the
originals, a short parse is padded with the untranslated tail, a long
parse is truncated. -/
theorem translate_batch_length (batch : List String)
    (o : Except Unit String) :
    (translate_batch batch o).length = batch.length := by
  cases o with
  | error e => rfl
  | ok t =>
    simp [translate_batch, List.length_take, List.length_append,
      List.length_drop]
    omega

/-- **C9.** For every input list of comments, when the abort token is
never set, `translate_comments` returns a list of exactly the same length
as its input. -/
theorem translate_length_preserved (comments : List String)
    (api : Nat → Except Unit String) (abort : Nat → Bool)
    (h : abort = fun _ => false) :
    (translate_comments comments api abort).length = comments.length := by
  subst h
  suffices H : ∀ n cs i, cs.length ≤ n →
      (translate_go api (fun _ => false) cs i).length = cs.length by
    exact H comments.length comments 0 le_rfl
  intro n
  induction n with
  | zero =>
    intro cs i h0
    have hnil : cs = [] := List.length_eq_zero.mp (Nat.le_zero.mp h0)
    subst hnil
    simp [translate_go]
  | succ k ih =>
    intro cs i hlen
    match cs with
    | [] => simp [translate_go]
    | c :: rest =>
      rw [translate_go]
      simp only [Bool.false_eq_true, if_false]
      rw [List.length_append, translate_batch_length]
      have hrk : (rest.drop 19).length ≤ k := by
        simp only [List.length_cons] at hlen
        simp [List.length_drop]
        omega
      rw [ih (rest.drop 19) (i + 1) hrk]
      simp [List.length_take, List.length_drop]
      omega

/-- Witness for C9 at a concrete input (two comments, a raising API). -/
theorem translate_length_preserved_witness :
    exAbortOff = (fun _ => false) ∧
    (translate_comments ["a", "b"] exApiRaises exAbortOff).length =
      (["a", "b"] : List String).length :=
  ⟨rfl, translate_length_preserved ["a", "b"] exApiRaises exAbortOff rfl⟩

/-- **C10.** The `url` field is validated only for presence: a request
whose `url` is present but empty passes the 400 validation layer, and the
response is a stream in which video-id extraction fails inside the
pipeline, surfacing as a streamed `error` record with the message raised
by `fetch_comments`; only the Comment Source is invoked. -/
theorem url_checked_for_presence_only (cache : Cache) (d : ReqData)
    (envKey : Option String) (pages : List (List String)) (abort : Nat → Bool)
    (polls : Nat) (trP : List (List String)) (trF : List String)
    (trR : Except String TransPayload) (trA : Bool)
    (hurl : d.url = some "")
    (hyk : pyStrip (d.youtube_api_key.getD "") ≠ "")
    (hgk : pyStrip (d.groq_api_key.getD "") ≠ "")
    (hrid : pyStrip (d.request_id.getD "") ≠ "")
    (hmiss : List.lookup (pyStrip (d.request_id.getD "")) cache = none) :
    fetch_comments "" (some (pyStrip (d.youtube_api_key.getD ""))) envKey
        pages abort =
      Except.error ("Could not extract a valid YouTube video ID from " ++ "") ∧
    process_video cache (some d)
        ({ extractPolls := polls,
           extractResult := fetch_comments ""
             (some (pyStrip (d.youtube_api_key.getD ""))) envKey pages abort,
           abortAfterExtract := false, transPolls := trP,
           transFinalDrain := trF, transResult := trR,
           abortAfterTrans := trA } : GenEnv) =
      (Resp.stream
        ((SSERecord.data (DataEvent.status "extracting"
            "Fetching comments from YouTube...") ::
          List.replicate polls keepAliveRecord) ++
          [SSERecord.data (DataEvent.error
            ("Could not extract a valid YouTube video ID from " ++ ""))]),
       cache, ["fetch_comments"]) := by
  have hvid : extract_video_id "" = none := by decide
  have ht : truthyOpt (some (pyStrip (d.youtube_api_key.getD ""))) = true := by
    simp [truthyOpt, hyk]
  have hfc : fetch_comments "" (some (pyStrip (d.youtube_api_key.getD "")))
      envKey pages abort =
      Except.error ("Could not extract a valid YouTube video ID from " ++ "") := by
    simp [fetch_comments, ht, hvid]
  refine ⟨hfc, ?_⟩
  simp [process_video, hurl, hyk, hgk, hrid, hmiss, generate, hfc,
    run_task_empty_polls]

/-- Witness for C10 at a concrete input (empty `url`, valid keys). -/
theorem url_checked_for_presence_only_witness :
    exReqEmptyUrl.url = some "" ∧
    pyStrip (exReqEmptyUrl.youtube_api_key.getD "") ≠ "" ∧
    pyStrip (exReqEmptyUrl.groq_api_key.getD "") ≠ "" ∧
    pyStrip (exReqEmptyUrl.request_id.getD "") ≠ "" ∧
    List.lookup (pyStrip (exReqEmptyUrl.request_id.getD "")) ([] : Cache) =
      none ∧
    (fetch_comments "" (some (pyStrip (exReqEmptyUrl.youtube_api_key.getD "")))
        none [] exAbortOff =
      Except.error ("Could not extract a valid YouTube video ID from " ++ "") ∧
    process_video [] (some exReqEmptyUrl)
        ({ extractPolls := 0,
           extractResult := fetch_comments ""
             (some (pyStrip (exReqEmptyUrl.youtube_api_key.getD ""))) none []
             exAbortOff,
           abortAfterExtract := false, transPolls := [],
           transFinalDrain := [], transResult := Except.error "",
           abortAfterTrans := false } : GenEnv) =
      (Resp.stream
        ((SSERecord.data (DataEvent.status "extracting"
            "Fetching comments from YouTube...") ::
          List.replicate 0 keepAliveRecord) ++
          [SSERecord.data (DataEvent.error
            ("Could not extract a valid YouTube video ID from " ++ ""))]),
       [], ["fetch_comments"])) :=
  ⟨rfl, by decide, by decide, by decide, rfl,
   url_checked_for_presence_only [] exReqEmptyUrl none [] exAbortOff 0 []
     [] (Except.error "") false rfl (by decide) (by decide) (by decide) rfl⟩

end BugRca
